import Mathlib

/-!
Verification of the compatibility-shim scripts of the single-cell-analysis
blueprint repository.  The Python sources are shallowly embedded: JSON
notebook documents become an inductive `Json` type plus a `Notebook`
structure, Python exceptions become the `PyExc` type, module attribute
tables become association lists from names to callable-object identifiers,
and each patch function becomes a Lean function whose result records
whether it returned normally or let an exception escape.
-/

namespace SCBlueprint

/-- JSON values, as manipulated by `json.load` / `json.dump`. -/
inductive Json where
  | null : Json
  | bool (b : Bool) : Json
  | num (n : Int) : Json
  | str (s : String) : Json
  | arr (xs : List Json) : Json
  | obj (kvs : List (String × Json)) : Json

/-- A notebook document: the `cells` entry of the top-level JSON object,
plus every other top-level entry (`metadata`, `nbformat`, ...), which the
scripts never touch. -/
structure Notebook where
  cells : List Json
  rest : List (String × Json)

/-- The fixed remediation cell inserted by `pca_compatibility_fix.py`
(lines 20-54).  Apostrophes are written `\x27` and braces `\x7b`/`\x7d`;
the content is otherwise the source's literal cell. -/
def compatibility_cell : Json :=
  Json.obj
    [ ("cell_type", Json.str "code"),
      ("execution_count", Json.null),
      ("id", Json.str "pca-compatibility-fix"),
      ("metadata", Json.obj []),
      ("outputs", Json.arr []),
      ("source", Json.arr
        [ Json.str "# PCA Compatibility Fix: Convert rapids-singlecell PCA results to scanpy format\n",
          Json.str "try:\n",
          Json.str "    if \x27pca\x27 not in adata.uns:\n",
          Json.str "        print(\x27⚠️  PCA results not found in adata.uns, attempting to recreate...\x27)\n",
          Json.str "        if hasattr(adata, \x27obsm\x27) and \x27X_pca\x27 in adata.obsm:\n",
          Json.str "            # Create minimal PCA structure for plotting\n",
          Json.str "            import numpy as np\n",
          Json.str "            n_pcs = min(100, adata.obsm[\x27X_pca\x27].shape[1])\n",
          Json.str "            # Create dummy variance ratio (will be replaced if available)\n",
          Json.str "            variance_ratio = np.ones(n_pcs) / n_pcs\n",
          Json.str "            if hasattr(adata, \x27varm\x27) and \x27PCs\x27 in adata.varm:\n",
          Json.str "                # Use actual variance if available\n",
          Json.str "                variance_ratio = np.var(adata.obsm[\x27X_pca\x27], axis=0)\n",
          Json.str "                variance_ratio = variance_ratio / variance_ratio.sum()\n",
          Json.str "            adata.uns[\x27pca\x27] = \x7b\n",
          Json.str "                \x27variance\x27: variance_ratio * adata.n_vars,\n",
          Json.str "                \x27variance_ratio\x27: variance_ratio\n",
          Json.str "            \x7d\n",
          Json.str "            print(f\x27✅ Created PCA structure with \x7bn_pcs\x7d components\x27)\n",
          Json.str "        else:\n",
          Json.str "            print(\x27❌ No PCA data found, skipping PCA plots\x27)\n",
          Json.str "    else:\n",
          Json.str "        print(\x27✅ PCA data already available\x27)\n",
          Json.str "except Exception as e:\n",
          Json.str "    print(f\x27⚠️  PCA compatibility fix failed: \x7be\x7d\x27)\n",
          Json.str "    print(\x27Continuing without PCA plots...\x27)" ]) ]

/-- `add_pca_compatibility_cell` (pca_compatibility_fix.py, lines 11-67):
`insert_index = 26`; when `insert_index < len(nb.cells)` the compatibility
cell is inserted there (Python `list.insert`), otherwise the document is
left as loaded; the resulting document is what `json.dump` writes. -/
def add_pca_compatibility_cell (nb : Notebook) : Notebook :=
  let insert_index := 26
  if insert_index < nb.cells.length then
    { nb with cells := nb.cells.insertIdx insert_index compatibility_cell }
  else
    nb

/-- Python exceptions raised by the embedded code (all are subclasses of
`Exception`). -/
inductive PyExc where
  | importError (msg : String) : PyExc
  | keyError (key : String) : PyExc
  | attributeError (msg : String) : PyExc
  | other (msg : String) : PyExc
deriving DecidableEq

/-- Does `e` match an `except ImportError` clause? -/
def PyExc.matchesImportErr : PyExc → Bool
  | .importError _ => true
  | _ => false

/-- Python `str(e)`: for a `KeyError` this is the `repr` of the missing
key, i.e. the key wrapped in single quotes; for the other modelled
exceptions it is the message they were constructed with. -/
def pyStr : PyExc → String
  | .importError m => m
  | .keyError k => "\x27" ++ k ++ "\x27"
  | .attributeError m => m
  | .other m => m

/-- Whether `pat` occurs at the head of `l` (list-of-characters form of a
string comparison). -/
def leadsWith : List Char → List Char → Bool
  | [], _ => true
  | _ :: _, [] => false
  | c :: cs, d :: ds => c == d && leadsWith cs ds

/-- Whether `pat` occurs somewhere inside `l`. -/
def hasSegment (pat : List Char) : List Char → Bool
  | [] => leadsWith pat []
  | c :: cs => leadsWith pat (c :: cs) || hasSegment pat cs

/-- Python's substring test `needle in hay`. -/
def strContains (hay needle : String) : Bool :=
  hasSegment needle.toList hay.toList

/-- Python's `str.lower()` (the messages involved are ASCII). -/
def strLower (s : String) : String :=
  String.mk (s.toList.map Char.toLower)

/-- A module's attribute table: attribute name to callable-object
identifier (object identity is what the alias patch is about). -/
abbrev Attrs : Type := List (String × Nat)

/-- Python `getattr(m, name)` / `from m import name`, as a lookup. -/
def getattr? (m : Attrs) (name : String) : Option Nat :=
  (List.find? (fun p => p.1 == name) m).map (fun p => p.2)

/-- Python `setattr(m, name, v)` / `m.name = v`: replaces any existing
binding of `name`. -/
def setattr (m : Attrs) (name : String) (v : Nat) : Attrs :=
  (name, v) :: List.filter (fun p => !(p.1 == name)) m

/-- Result of running one patch function: it either returned normally or
let a Python exception escape its boundary; in both cases the library
state afterwards is recorded. -/
inductive PatchOutcome (σ : Type) where
  | returned (s : σ) : PatchOutcome σ
  | raised (e : PyExc) (s : σ) : PatchOutcome σ
deriving DecidableEq

/-- State of the `anndata.experimental` module: `Except.error e` when
the import of the module itself raises `e`, `Except.ok m` when it is loaded
with attribute table `m`. -/
abbrev AnndataExp : Type := Except PyExc Attrs

/-- `CompatibilityManager.apply_anndata_compatibility`
(unified_compat.py, lines 29-46): import `read_elem_lazy` (an absent name
raises `ImportError`); if `read_elem_as_dask` also imports, do nothing;
otherwise bind `read_elem_as_dask` to the `read_elem_lazy` callable.  The
whole body sits under `except Exception`, so every raised exception is
caught and the function returns normally. -/
def apply_anndata_compatibility (st : AnndataExp) : PatchOutcome AnndataExp :=
  match st with
  | .error _ => .returned st
  | .ok m =>
    match getattr? m "read_elem_lazy" with
    | none => .returned st
    | some lazy =>
      match getattr? m "read_elem_as_dask" with
      | some _ => .returned st
      | none => .returned (.ok (setattr m "read_elem_as_dask" lazy))

/-- `patch_anndata` (anndata_compat.py, lines 7-24): textually the same
procedure as `apply_anndata_compatibility`, with different messages. -/
def patch_anndata (st : AnndataExp) : PatchOutcome AnndataExp :=
  match st with
  | .error _ => .returned st
  | .ok m =>
    match getattr? m "read_elem_lazy" with
    | none => .returned st
    | some lazy =>
      match getattr? m "read_elem_as_dask" with
      | some _ => .returned st
      | none => .returned (.ok (setattr m "read_elem_as_dask" lazy))

/-- State of the `scanpy.plotting` module, like `AnndataExp`:
`Except.error e` when `import scanpy` / `import scanpy.plotting` raises
`e`, `Except.ok m` when loaded with attribute table `m`. -/
abbrev ScanpyPlotting : Type := Except PyExc Attrs

/-- Callable-object identifier of the freshly created `safe_pca` closure. -/
def safe_pca_fid : Nat := 1000

/-- `CompatibilityManager.apply_pca_compatibility` (unified_compat.py,
lines 48-77): import scanpy and scanpy.plotting; save `scpl.pca` as
`scpl._original_pca` unless already saved (reading a missing `pca`
attribute raises `AttributeError`); install the `safe_pca` wrapper as
`scpl.pca`.  The body is guarded only by `except ImportError`, so any
non-`ImportError` exception escapes. -/
def apply_pca_compatibility (st : ScanpyPlotting) : PatchOutcome ScanpyPlotting :=
  match st with
  | .error (.importError m) => .returned (.error (.importError m))
  | .error e => .raised e (.error e)
  | .ok scpl =>
    match getattr? scpl "_original_pca" with
    | some _ => .returned (.ok (setattr scpl "pca" safe_pca_fid))
    | none =>
      match getattr? scpl "pca" with
      | none =>
        .raised (.attributeError "module \x27scanpy.plotting\x27 has no attribute \x27pca\x27") (.ok scpl)
      | some f =>
        .returned (.ok (setattr (setattr scpl "_original_pca" f) "pca" safe_pca_fid))

/-- `patch_pca_compatibility` (pca_compat.py, lines 16-82): patch 1 is the
same `except ImportError`-guarded body as `apply_pca_compatibility`; the
Bool records whether patch 2 (registering `ensure_pca_compatibility` on
`builtins`) was reached — it runs after the `try`, so only an escaping
exception from patch 1 skips it. -/
def patch_pca_compatibility (st : ScanpyPlotting) : PatchOutcome (ScanpyPlotting × Bool) :=
  match st with
  | .error (.importError m) => .returned (.error (.importError m), true)
  | .error e => .raised e (.error e, false)
  | .ok scpl =>
    match getattr? scpl "_original_pca" with
    | some _ => .returned (.ok (setattr scpl "pca" safe_pca_fid), true)
    | none =>
      match getattr? scpl "pca" with
      | none =>
        .raised (.attributeError "module \x27scanpy.plotting\x27 has no attribute \x27pca\x27") (.ok scpl, false)
      | some f =>
        .returned (.ok (setattr (setattr scpl "_original_pca" f) "pca" safe_pca_fid), true)

/-- The `safe_pca` wrapper installed over `scpl.pca` (unified_compat.py
lines 58-69, pca_compat.py lines 29-40), as a function of the outcome of
the wrapped original call: a `KeyError` whose `str` contains "pca" is
swallowed and `None` is returned; any other exception is re-raised; a
normal result is passed through. -/
def safe_pca {V : Type} (origCall : Except PyExc V) : Except PyExc (Option V) :=
  match origCall with
  | .ok v => .ok (some v)
  | .error (.keyError k) =>
    if strContains (pyStr (.keyError k)) "pca" then .ok none
    else .error (.keyError k)
  | .error e => .error e

/-- The keyword list of `resilient_excepthook` (unified_compat.py,
line 88). -/
def resilienceKeywords : List String :=
  ["keyerror: \x27pca\x27", "pca", "plotting"]

/-- `CompatibilityManager.apply_general_resilience` (unified_compat.py,
lines 79-99): replaces `sys.excepthook` with `resilient_excepthook`.  The
replacement hook, as a function of the uncaught exception's `str`:
`none` means it returned without invoking the previous hook (the error is
swallowed); `some r` means it delegated to the previous hook
`original_excepthook`, whose behaviour is `r`. -/
def apply_general_resilience {α : Type} (original_excepthook : String → α) :
    String → Option α :=
  fun excValue =>
    let error_msg := strLower excValue
    if resilienceKeywords.any (fun kw => strContains error_msg kw) then none
    else some (original_excepthook excValue)

/-- The patch groups a dispatcher run can invoke. -/
inductive PatchKind where
  | anndata : PatchKind
  | pca : PatchKind
  | generalResilience : PatchKind
deriving DecidableEq

/-- Python truthiness of the manager's `notebook_name` field (`None` and
the empty string are falsy). -/
def nameTruthy : Option String → Bool
  | none => false
  | some s => !(s == "")

/-- `CompatibilityManager.apply_all_patches` (unified_compat.py, lines
122-127): anndata, then pca, then general resilience. -/
def apply_all_patches : List PatchKind :=
  [.anndata, .pca, .generalResilience]

/-- `CompatibilityManager.apply_notebook_specific_patches`
(unified_compat.py, lines 101-120), as the sequence of patch groups it
invokes: `if not self.notebook_name` apply everything; notebook 01 gets
the PCA patch, notebooks 04/05 the anndata patch, each plus general
resilience; anything else gets general resilience only. -/
def apply_notebook_specific_patches (notebook_name : Option String) : List PatchKind :=
  if !(nameTruthy notebook_name) then apply_all_patches
  else
    match notebook_name with
    | none => apply_all_patches
    | some n =>
      if ["01_scRNA_analysis_preprocessing"].contains n then
        [.pca, .generalResilience]
      else if ["04_scRNA_analysis_dask_out_of_core", "05_scRNA_analysis_multi_GPU"].contains n then
        [.anndata, .generalResilience]
      else
        [.generalResilience]

/-- Content of a file at a notebook path: either a well-formed notebook
JSON document, or content on which loading it as a notebook raises (bad
JSON, or a JSON document the script's `nb[...]` accesses reject); the tag
distinguishes such contents. -/
inductive FileContent where
  | nbDoc (nb : Notebook) : FileContent
  | badDoc (tag : String) : FileContent

/-- The `__main__` driver of pca_compatibility_fix.py (lines 69-84), given
the content of the input file: returns the process exit code and the
content written to the output path.  On a loadable notebook the fixed
document is dumped and the script exits 0; when loading raises, the
`except` clause copies the input file to the output path unchanged
(`shutil.copy2`) and exits 1. -/
def pca_fix_main (input : FileContent) : Nat × FileContent :=
  match input with
  | .nbDoc nb => (0, .nbDoc (add_pca_compatibility_cell nb))
  | .badDoc t => (1, .badDoc t)

/-- Is the message pca-related in the sense of pca_safe_execution.py line
35: `'pca' in error_msg.lower() or 'keyerror' in error_msg.lower()`? -/
def pcaRelatedMsg (error_msg : String) : Bool :=
  strContains (strLower error_msg) "pca" || strContains (strLower error_msg) "keyerror"

/-- Environment of one run of pca_safe_execution.py: the content of the
input file, the exception (if any) raised while applying
`patch_pca_compatibility` or importing papermill, the outcome of
`pm.execute_notebook`, and what that execution left at the output path
(`none` when nothing was written). -/
structure ExecEnv where
  input : FileContent
  patchRaise : Option PyExc
  execResult : Except PyExc Unit
  execWrites : Option FileContent

/-- `execute_with_pca_safety` (pca_safe_execution.py, lines 11-43):
returns the function's Bool result together with the content left at the
output path.  Everything is inside one `except Exception` block: a raised
exception whose `str` is pca-related yields `True`, any other raised
exception yields `False`; nothing is ever copied to the output path by
this script itself. -/
def execute_with_pca_safety (env : ExecEnv) : Bool × Option FileContent :=
  match env.patchRaise with
  | some e => (pcaRelatedMsg (pyStr e), none)
  | none =>
    match env.execResult with
    | .ok _ => (true, env.execWrites)
    | .error e => (pcaRelatedMsg (pyStr e), env.execWrites)

/-- The `__main__` driver of pca_safe_execution.py (lines 45-51): exit
code `0` when `execute_with_pca_safety` returned `True`, else `1`,
together with the final content of the output path. -/
def pca_safe_execution_main (env : ExecEnv) : Nat × Option FileContent :=
  let r := execute_with_pca_safety env
  (if r.1 then 0 else 1, r.2)

/-- A concrete 27-cell notebook document. -/
def nb27 : Notebook :=
  { cells := List.replicate 27 (Json.obj [("cell_type", Json.str "code")]),
    rest := [("nbformat", Json.num 4)] }

/-- A concrete 26-cell notebook document. -/
def nb26 : Notebook :=
  { cells := List.replicate 26 (Json.obj [("cell_type", Json.str "code")]),
    rest := [("nbformat", Json.num 4)] }

/-- A concrete previously-installed exception hook. -/
def priorHook : String → Nat :=
  fun _ => 0

/-- A concrete run of pca_safe_execution.py in which the notebook
execution raises a non-pca-related error after writing nothing. -/
def execFailEnv : ExecEnv :=
  { input := FileContent.nbDoc nb26,
    patchRaise := none,
    execResult := Except.error (PyExc.other "No space left on device"),
    execWrites := none }

/-! Helper lemmas about positional insertion and attribute tables. -/

theorem insertIdx_get_lt {α : Type} (n k : Nat) (a : α) (l : List α) (h : k < n) :
    (l.insertIdx n a)[k]? = l[k]? := by
  induction k generalizing n l with
  | zero =>
    cases n with
    | zero => omega
    | succ m =>
      cases l with
      | nil => simp [List.insertIdx_succ_nil]
      | cons b t => simp [List.insertIdx_succ_cons]
  | succ j ih =>
    cases n with
    | zero => omega
    | succ m =>
      cases l with
      | nil => simp [List.insertIdx_succ_nil]
      | cons b t =>
        rw [List.insertIdx_succ_cons, List.getElem?_cons_succ, List.getElem?_cons_succ]
        exact ih m t (by omega)

theorem insertIdx_get_self {α : Type} (n : Nat) (a : α) (l : List α) (h : n ≤ l.length) :
    (l.insertIdx n a)[n]? = some a := by
  induction n generalizing l with
  | zero => simp [List.insertIdx_zero]
  | succ m ih =>
    cases l with
    | nil => simp at h
    | cons b t =>
      rw [List.insertIdx_succ_cons, List.getElem?_cons_succ]
      exact ih t (by simpa using h)

theorem insertIdx_get_shift {α : Type} (n k : Nat) (a : α) (l : List α) (h : n ≤ k) :
    (l.insertIdx n a)[k + 1]? = l[k]? := by
  induction n generalizing k l with
  | zero => simp [List.insertIdx_zero]
  | succ m ih =>
    cases l with
    | nil => simp [List.insertIdx_succ_nil]
    | cons b t =>
      cases k with
      | zero => omega
      | succ j =>
        rw [List.insertIdx_succ_cons, List.getElem?_cons_succ, List.getElem?_cons_succ]
        exact ih j t (by omega)

theorem find_skip_other_key (m : Attrs) (n s : String) (hns : ¬s = n) :
    List.find? (fun p => p.1 == s) (List.filter (fun p => !(p.1 == n)) m)
      = List.find? (fun p => p.1 == s) m := by
  have hns2 : (n == s) = false := beq_eq_false_iff_ne.mpr (fun h => hns h.symm)
  induction m with
  | nil => rfl
  | cons q t ih =>
    by_cases hq : q.1 = n
    · have h1 : (q.1 == n) = true := beq_iff_eq.mpr hq
      have h2 : (q.1 == s) = false := by rw [hq]; exact hns2
      rw [List.filter_cons]
      simp only [h1, Bool.not_true, Bool.false_eq_true, if_false]
      rw [List.find?_cons, h2, ih]
    · have h1 : (q.1 == n) = false := beq_eq_false_iff_ne.mpr hq
      rw [List.filter_cons]
      simp only [h1, Bool.not_false, if_true]
      rw [List.find?_cons, List.find?_cons]
      cases hqt : (q.1 == s) with
      | true => rfl
      | false => exact ih

theorem getattr_setattr (m : Attrs) (n s : String) (v : Nat) :
    getattr? (setattr m n v) s = if s = n then some v else getattr? m s := by
  by_cases hs : s = n
  · subst hs
    simp [getattr?, setattr, List.find?_cons]
  · simp only [getattr?, setattr, List.find?_cons]
    have hn : (n == s) = false := by
      simp only [beq_eq_false_iff_ne, ne_eq]
      exact fun h => hs h.symm
    simp [hn, find_skip_other_key m n s hs, hs]

/-- C1: on a notebook document with at least 27 cells,
`add_pca_compatibility_cell` produces a document with one more cell, the
fixed compatibility cell at index 26, cells 0..25 at their old indices,
the old cells from 26 on shifted up by one, and all other top-level
entries untouched. -/
theorem C1_insert_at_26 (nb : Notebook) (h : 27 ≤ nb.cells.length) :
    (add_pca_compatibility_cell nb).cells.length = nb.cells.length + 1
  ∧ (add_pca_compatibility_cell nb).cells[26]? = some compatibility_cell
  ∧ (∀ i, i < 26 → (add_pca_compatibility_cell nb).cells[i]? = nb.cells[i]?)
  ∧ (∀ i, 26 ≤ i → (add_pca_compatibility_cell nb).cells[i + 1]? = nb.cells[i]?)
  ∧ (add_pca_compatibility_cell nb).rest = nb.rest := by
  have h26 : 26 < nb.cells.length := by omega
  have hcells : (add_pca_compatibility_cell nb).cells
      = nb.cells.insertIdx 26 compatibility_cell := by
    simp [add_pca_compatibility_cell, h26]
  have hrest : (add_pca_compatibility_cell nb).rest = nb.rest := by
    simp [add_pca_compatibility_cell, h26]
  refine ⟨?_, ?_, ?_, ?_, hrest⟩
  · rw [hcells]
    exact List.length_insertIdx 26 nb.cells (by omega)
  · rw [hcells]
    exact insertIdx_get_self 26 compatibility_cell nb.cells (by omega)
  · intro i hi
    rw [hcells]
    exact insertIdx_get_lt 26 i compatibility_cell nb.cells hi
  · intro i hi
    rw [hcells]
    exact insertIdx_get_shift 26 i compatibility_cell nb.cells hi

/-- Witness for C1 at a concrete 27-cell notebook. -/
theorem C1_insert_at_26_witness :
    (add_pca_compatibility_cell nb27).cells.length = nb27.cells.length + 1
  ∧ (add_pca_compatibility_cell nb27).cells[26]? = some compatibility_cell :=
  ⟨(C1_insert_at_26 nb27 (by decide)).1, (C1_insert_at_26 nb27 (by decide)).2.1⟩

/-- C9: on a notebook document with fewer than 27 cells,
`add_pca_compatibility_cell` inserts nothing and the document written to
the output path is the loaded document unmodified. -/
theorem C9_short_notebook_unchanged (nb : Notebook) (h : nb.cells.length < 27) :
    add_pca_compatibility_cell nb = nb
  ∧ pca_fix_main (FileContent.nbDoc nb) = (0, FileContent.nbDoc nb) := by
  have h26 : ¬26 < nb.cells.length := by omega
  have h1 : add_pca_compatibility_cell nb = nb := by
    simp [add_pca_compatibility_cell, h26]
  exact ⟨h1, by simp [pca_fix_main, h1]⟩

/-- Witness for C9 at a concrete 26-cell notebook. -/
theorem C9_short_notebook_unchanged_witness :
    add_pca_compatibility_cell nb26 = nb26 :=
  (C9_short_notebook_unchanged nb26 (by decide)).1

/-- C5: when `read_elem_lazy` is importable and `read_elem_as_dask` is
absent, both alias patches bind `read_elem_as_dask` to the identical
callable as `read_elem_lazy` and return normally. -/
theorem C5_alias_patch_sets_old_name (m : Attrs) (f : Nat)
    (hlazy : getattr? m "read_elem_lazy" = some f)
    (hdask : getattr? m "read_elem_as_dask" = none) :
    apply_anndata_compatibility (Except.ok m)
      = PatchOutcome.returned (Except.ok (setattr m "read_elem_as_dask" f))
  ∧ patch_anndata (Except.ok m)
      = PatchOutcome.returned (Except.ok (setattr m "read_elem_as_dask" f))
  ∧ getattr? (setattr m "read_elem_as_dask" f) "read_elem_as_dask" = some f
  ∧ getattr? (setattr m "read_elem_as_dask" f) "read_elem_lazy"
      = getattr? (setattr m "read_elem_as_dask" f) "read_elem_as_dask" := by
  have hd : getattr? (setattr m "read_elem_as_dask" f) "read_elem_as_dask" = some f := by
    rw [getattr_setattr]
    simp
  have hl : getattr? (setattr m "read_elem_as_dask" f) "read_elem_lazy" = some f := by
    rw [getattr_setattr]
    simp [hlazy]
  refine ⟨?_, ?_, hd, by rw [hd, hl]⟩
  · simp [apply_anndata_compatibility, hlazy, hdask]
  · simp [patch_anndata, hlazy, hdask]

/-- Witness for C5 at a concrete one-entry attribute table. -/
theorem C5_alias_patch_sets_old_name_witness :
    apply_anndata_compatibility (Except.ok [("read_elem_lazy", 7)])
      = PatchOutcome.returned (Except.ok (setattr [("read_elem_lazy", 7)] "read_elem_as_dask" 7))
  ∧ getattr? (setattr [("read_elem_lazy", 7)] "read_elem_as_dask" 7) "read_elem_as_dask"
      = some 7 :=
  ⟨(C5_alias_patch_sets_old_name [("read_elem_lazy", 7)] 7 (by decide) (by decide)).1,
   (C5_alias_patch_sets_old_name [("read_elem_lazy", 7)] 7 (by decide) (by decide)).2.2.1⟩

/-- C6: when `read_elem_as_dask` is already importable, both alias
patches leave the module's attribute table unchanged. -/
theorem C6_alias_patch_noop (m : Attrs) (f : Nat)
    (hdask : getattr? m "read_elem_as_dask" = some f) :
    apply_anndata_compatibility (Except.ok m) = PatchOutcome.returned (Except.ok m)
  ∧ patch_anndata (Except.ok m) = PatchOutcome.returned (Except.ok m) := by
  cases hlazy : getattr? m "read_elem_lazy" with
  | none => exact ⟨by simp [apply_anndata_compatibility, hlazy],
      by simp [patch_anndata, hlazy]⟩
  | some lazy => exact ⟨by simp [apply_anndata_compatibility, hlazy, hdask],
      by simp [patch_anndata, hlazy, hdask]⟩

/-- Witness for C6 at a concrete attribute table holding both names. -/
theorem C6_alias_patch_noop_witness :
    apply_anndata_compatibility (Except.ok [("read_elem_as_dask", 3), ("read_elem_lazy", 5)])
      = PatchOutcome.returned (Except.ok [("read_elem_as_dask", 3), ("read_elem_lazy", 5)]) :=
  (C6_alias_patch_noop [("read_elem_as_dask", 3), ("read_elem_lazy", 5)] 3 (by decide)).1

/-- C4: the `safe_pca` wrapper returns `None` when the wrapped call
raises a `KeyError` whose string mentions "pca", re-raises every other
exception unchanged, and passes a normal result through. -/
theorem C4_safe_pca_behavior (V : Type) :
    (∀ k : String, strContains (pyStr (PyExc.keyError k)) "pca" = true →
        safe_pca (Except.error (PyExc.keyError k) : Except PyExc V) = Except.ok none)
  ∧ (∀ k : String, strContains (pyStr (PyExc.keyError k)) "pca" = false →
        safe_pca (Except.error (PyExc.keyError k) : Except PyExc V)
          = Except.error (PyExc.keyError k))
  ∧ (∀ msg : String, safe_pca (Except.error (PyExc.importError msg) : Except PyExc V)
        = Except.error (PyExc.importError msg))
  ∧ (∀ msg : String, safe_pca (Except.error (PyExc.attributeError msg) : Except PyExc V)
        = Except.error (PyExc.attributeError msg))
  ∧ (∀ msg : String, safe_pca (Except.error (PyExc.other msg) : Except PyExc V)
        = Except.error (PyExc.other msg))
  ∧ (∀ v : V, safe_pca (Except.ok v) = Except.ok (some v)) := by
  refine ⟨?_, ?_, fun _ => rfl, fun _ => rfl, fun _ => rfl, fun _ => rfl⟩
  · intro k hk
    simp [safe_pca, hk]
  · intro k hk
    simp [safe_pca, hk]

/-- Witness for C4: a `KeyError` on key "pca" is swallowed, a `KeyError`
on another key and a non-`KeyError` exception propagate. -/
theorem C4_safe_pca_behavior_witness :
    safe_pca (Except.error (PyExc.keyError "pca") : Except PyExc Unit) = Except.ok none
  ∧ safe_pca (Except.error (PyExc.keyError "neighbors") : Except PyExc Unit)
      = Except.error (PyExc.keyError "neighbors")
  ∧ safe_pca (Except.error (PyExc.other "boom") : Except PyExc Unit)
      = Except.error (PyExc.other "boom") :=
  ⟨(C4_safe_pca_behavior Unit).1 "pca" (by decide),
   (C4_safe_pca_behavior Unit).2.1 "neighbors" (by decide),
   (C4_safe_pca_behavior Unit).2.2.2.2.1 "boom"⟩

/-- C8: the hook installed by `apply_general_resilience` suppresses an
uncaught exception (returning without invoking the previous hook) exactly
when the lowercased exception string contains one of the three keywords,
and otherwise delegates to the previous hook unchanged. -/
theorem C8_excepthook_suppression (α : Type) (original_excepthook : String → α) (s : String) :
    (apply_general_resilience original_excepthook s = none ↔
        (strContains (strLower s) "keyerror: \x27pca\x27" = true
         ∨ strContains (strLower s) "pca" = true
         ∨ strContains (strLower s) "plotting" = true))
  ∧ ((strContains (strLower s) "keyerror: \x27pca\x27" = false
      ∧ strContains (strLower s) "pca" = false
      ∧ strContains (strLower s) "plotting" = false) →
        apply_general_resilience original_excepthook s
          = some (original_excepthook s)) := by
  unfold apply_general_resilience resilienceKeywords
  cases h1 : strContains (strLower s) "keyerror: \x27pca\x27" <;>
    cases h2 : strContains (strLower s) "pca" <;>
      cases h3 : strContains (strLower s) "plotting" <;>
        simp [h1, h2, h3]

/-- Witness for C8: a pca-mentioning message is suppressed, an unrelated
message is delegated to the prior hook. -/
theorem C8_excepthook_suppression_witness :
    apply_general_resilience priorHook "KeyError: \x27pca\x27" = none
  ∧ apply_general_resilience priorHook "Disk quota exceeded"
      = some (priorHook "Disk quota exceeded") :=
  ⟨(C8_excepthook_suppression Nat priorHook "KeyError: \x27pca\x27").1.mpr
      (Or.inl (by decide)),
   (C8_excepthook_suppression Nat priorHook "Disk quota exceeded").2
      ⟨by decide, by decide, by decide⟩⟩

/-- C7 counterexample: the empty string is a set notebook name that is
none of the three recognized ones, yet the dispatcher treats it as falsy
(`if not self.notebook_name`) and applies all patches, the PCA-specific
and AnnData-specific ones included. -/
theorem C7_counterexample_empty_name :
    (["01_scRNA_analysis_preprocessing", "04_scRNA_analysis_dask_out_of_core",
        "05_scRNA_analysis_multi_GPU"].contains "") = false
  ∧ apply_notebook_specific_patches (some "") = apply_all_patches
  ∧ (apply_notebook_specific_patches (some "")).contains PatchKind.pca = true
  ∧ (apply_notebook_specific_patches (some "")).contains PatchKind.anndata = true
  ∧ ¬apply_notebook_specific_patches (some "") = [PatchKind.generalResilience] := by
  decide

/-- C7 (amended): for every set, non-empty notebook name other than the
three recognized ones, the dispatcher applies only the general resilience
patch. -/
theorem C7_unrecognized_name_general_only (n : String) (hne : ¬n = "")
    (h1 : ¬n = "01_scRNA_analysis_preprocessing")
    (h4 : ¬n = "04_scRNA_analysis_dask_out_of_core")
    (h5 : ¬n = "05_scRNA_analysis_multi_GPU") :
    apply_notebook_specific_patches (some n) = [PatchKind.generalResilience] := by
  simp [apply_notebook_specific_patches, nameTruthy, hne, h1, h4, h5]

/-- Witness for the amended C7 at an unrecognized notebook name. -/
theorem C7_unrecognized_name_general_only_witness :
    apply_notebook_specific_patches (some "02_scRNA_analysis_extended")
      = [PatchKind.generalResilience] :=
  C7_unrecognized_name_general_only "02_scRNA_analysis_extended"
    (by decide) (by decide) (by decide) (by decide)

/-- C10: with no notebook context set, the dispatcher falls back to
`apply_all_patches` and so applies all three patch groups, not only the
general resilience one. -/
theorem C10_no_context_applies_all :
    apply_notebook_specific_patches none = apply_all_patches
  ∧ apply_all_patches = [PatchKind.anndata, PatchKind.pca, PatchKind.generalResilience]
  ∧ ¬apply_notebook_specific_patches none = [PatchKind.generalResilience] := by
  decide

/-- C2 counterexample: with scanpy importable but `scanpy.plotting`
lacking a `pca` attribute, the `AttributeError` raised inside
`apply_pca_compatibility` is not matched by its `except ImportError`
clause and escapes the function's boundary. -/
theorem C2_counterexample_attribute_error_escapes :
    apply_pca_compatibility (Except.ok ([] : Attrs))
      = PatchOutcome.raised
          (PyExc.attributeError "module \x27scanpy.plotting\x27 has no attribute \x27pca\x27")
          (Except.ok ([] : Attrs)) :=
  rfl

/-- C2 (amended): the anndata alias patches sit under `except Exception`
and return normally on every modelled exception; the two PCA patch
functions return normally on `ImportError` but propagate every
non-`ImportError` exception raised in their bodies. -/
theorem C2_catch_structure :
    (∀ st : AnndataExp, ∃ s, apply_anndata_compatibility st = PatchOutcome.returned s)
  ∧ (∀ st : AnndataExp, ∃ s, patch_anndata st = PatchOutcome.returned s)
  ∧ (∀ msg : String, apply_pca_compatibility (Except.error (PyExc.importError msg))
        = PatchOutcome.returned (Except.error (PyExc.importError msg)))
  ∧ (∀ st e s, apply_pca_compatibility st = PatchOutcome.raised e s →
        e.matchesImportErr = false)
  ∧ (∀ msg : String, patch_pca_compatibility (Except.error (PyExc.importError msg))
        = PatchOutcome.returned (Except.error (PyExc.importError msg), true))
  ∧ (∀ st e s, patch_pca_compatibility st = PatchOutcome.raised e s →
        e.matchesImportErr = false) := by
  refine ⟨?_, ?_, fun _ => rfl, ?_, fun _ => rfl, ?_⟩
  · intro st
    cases st with
    | error e => exact ⟨Except.error e, rfl⟩
    | ok m =>
      cases hlazy : getattr? m "read_elem_lazy" with
      | none => exact ⟨Except.ok m, by simp [apply_anndata_compatibility, hlazy]⟩
      | some lazy =>
        cases hdask : getattr? m "read_elem_as_dask" with
        | none => exact ⟨Except.ok (setattr m "read_elem_as_dask" lazy),
            by simp [apply_anndata_compatibility, hlazy, hdask]⟩
        | some f => exact ⟨Except.ok m,
            by simp [apply_anndata_compatibility, hlazy, hdask]⟩
  · intro st
    cases st with
    | error e => exact ⟨Except.error e, rfl⟩
    | ok m =>
      cases hlazy : getattr? m "read_elem_lazy" with
      | none => exact ⟨Except.ok m, by simp [patch_anndata, hlazy]⟩
      | some lazy =>
        cases hdask : getattr? m "read_elem_as_dask" with
        | none => exact ⟨Except.ok (setattr m "read_elem_as_dask" lazy),
            by simp [patch_anndata, hlazy, hdask]⟩
        | some f => exact ⟨Except.ok m,
            by simp [patch_anndata, hlazy, hdask]⟩
  · intro st e s h
    cases st with
    | error e2 =>
      cases e2 with
      | importError msg => simp [apply_pca_compatibility] at h
      | keyError k =>
        simp [apply_pca_compatibility] at h
        rw [← h.1]
        rfl
      | attributeError msg =>
        simp [apply_pca_compatibility] at h
        rw [← h.1]
        rfl
      | other msg =>
        simp [apply_pca_compatibility] at h
        rw [← h.1]
        rfl
    | ok scpl =>
      cases horig : getattr? scpl "_original_pca" with
      | some f => simp [apply_pca_compatibility, horig] at h
      | none =>
        cases hpca : getattr? scpl "pca" with
        | some f => simp [apply_pca_compatibility, horig, hpca] at h
        | none =>
          simp [apply_pca_compatibility, horig, hpca] at h
          rw [← h.1]
          rfl
  · intro st e s h
    cases st with
    | error e2 =>
      cases e2 with
      | importError msg => simp [patch_pca_compatibility] at h
      | keyError k =>
        simp [patch_pca_compatibility] at h
        rw [← h.1]
        rfl
      | attributeError msg =>
        simp [patch_pca_compatibility] at h
        rw [← h.1]
        rfl
      | other msg =>
        simp [patch_pca_compatibility] at h
        rw [← h.1]
        rfl
    | ok scpl =>
      cases horig : getattr? scpl "_original_pca" with
      | some f => simp [patch_pca_compatibility, horig] at h
      | none =>
        cases hpca : getattr? scpl "pca" with
        | some f => simp [patch_pca_compatibility, horig, hpca] at h
        | none =>
          simp [patch_pca_compatibility, horig, hpca] at h
          rw [← h.1]
          rfl

/-- Witness for the amended C2: the anndata patch returns normally on an
failure to import, the PCA patch returns normally on `ImportError`, and the
exception it lets escape on a missing `pca` attribute is not an
`ImportError`. -/
theorem C2_catch_structure_witness :
    apply_pca_compatibility (Except.error (PyExc.importError "No module named scanpy"))
      = PatchOutcome.returned (Except.error (PyExc.importError "No module named scanpy"))
  ∧ (PyExc.attributeError
        "module \x27scanpy.plotting\x27 has no attribute \x27pca\x27").matchesImportErr
      = false :=
  ⟨C2_catch_structure.2.2.1 "No module named scanpy",
   C2_catch_structure.2.2.2.1 (Except.ok ([] : Attrs))
      (PyExc.attributeError "module \x27scanpy.plotting\x27 has no attribute \x27pca\x27")
      (Except.ok ([] : Attrs)) rfl⟩

/-- C3 counterexample: when the execution-wrapping script fails on a
non-pca-related error it exits 1, but the original input file is not
copied to the output path — the output path holds whatever execution left
there (here: nothing). -/
theorem C3_counterexample_no_copy_through :
    pca_safe_execution_main execFailEnv = (1, none)
  ∧ ¬(pca_safe_execution_main execFailEnv).2 = some execFailEnv.input := by
  constructor
  · rfl
  · intro h
    exact Option.noConfusion ((rfl : (pca_safe_execution_main execFailEnv).2 = none) ▸ h)

/-- C3 (amended): the cell-injection script exits 0 on success and, on
failure, exits 1 after copying the input file through unchanged; the
execution-wrapping script exits 0 when execution succeeds or raises a
pca/keyerror-related error and 1 otherwise, and in every case leaves the
output path holding whatever the execution attempt wrote, performing no
copy-through of the input. -/
theorem C3_exit_codes :
    (∀ nb, pca_fix_main (FileContent.nbDoc nb)
        = (0, FileContent.nbDoc (add_pca_compatibility_cell nb)))
  ∧ (∀ t, pca_fix_main (FileContent.badDoc t) = (1, FileContent.badDoc t))
  ∧ (∀ env : ExecEnv, env.patchRaise = none → env.execResult = Except.ok () →
        pca_safe_execution_main env = (0, env.execWrites))
  ∧ (∀ env : ExecEnv, ∀ e, env.patchRaise = none → env.execResult = Except.error e →
        pcaRelatedMsg (pyStr e) = false →
        pca_safe_execution_main env = (1, env.execWrites))
  ∧ (∀ env : ExecEnv, ∀ e, env.patchRaise = none → env.execResult = Except.error e →
        pcaRelatedMsg (pyStr e) = true →
        pca_safe_execution_main env = (0, env.execWrites)) := by
  refine ⟨fun _ => rfl, fun _ => rfl, ?_, ?_, ?_⟩
  · intro env hp he
    simp [pca_safe_execution_main, execute_with_pca_safety, hp, he]
  · intro env e hp he hm
    simp [pca_safe_execution_main, execute_with_pca_safety, hp, he, hm]
  · intro env e hp he hm
    simp [pca_safe_execution_main, execute_with_pca_safety, hp, he, hm]

/-- Witness for the amended C3 at a concrete failed execution. -/
theorem C3_exit_codes_witness :
    pca_safe_execution_main execFailEnv = (1, execFailEnv.execWrites) :=
  C3_exit_codes.2.2.2.1 execFailEnv (PyExc.other "No space left on device")
    rfl rfl (by decide)

end SCBlueprint
